import Mathlib

/-!
Verification of the CSV-to-SQLite ingestion core of `load_csv_to_sql.py`.

The shallow embedding models the data model of the tool: a parsed CSV
dataset (named columns, ordered rows of cells), a SQLite store as an
association list from table names to tables, and the load operation
`create_table_from_csv` with its conflict resolution (overwrite / rename /
skip), sample-based type inference, column-name cleaning, table creation
and bulk row insertion.  External effects (CSV parsing, connecting,
executing DDL/DML) can fail; each possible failure point is represented by
an explicit input flag (`none` for a failed parse, `connectOk`, `dropOk`,
`createOk`, `insertOk`), and the outcome records the produced result, the
final store, whether the error log was written, whether an exception
escaped the call, and whether the connection was acquired and released.
-/

namespace LoadCsv

/-- A cell of the dataset: missing, integer, floating point, or text
(the value classes distinguished by `infer_sqlite_type`). -/
inductive Cell where
| missing : Cell
| intv : Int → Cell
| floatv : ℚ → Cell
| textv : String → Cell
deriving DecidableEq

/-- The SQLite storage classes produced by `infer_sqlite_type`. -/
inductive SqliteType where
| INTEGER : SqliteType
| REAL : SqliteType
| TEXT : SqliteType
deriving DecidableEq

/-- `infer_sqlite_type(value)` from the source: `pd.isna(value)` gives
TEXT, an `int` gives INTEGER, a `float` gives REAL, anything else TEXT. -/
def infer_sqlite_type : Cell → SqliteType
| Cell.missing => SqliteType.TEXT
| Cell.intv _ => SqliteType.INTEGER
| Cell.floatv _ => SqliteType.REAL
| Cell.textv _ => SqliteType.TEXT

/-- A parsed CSV (`pd.read_csv` result): ordered column names and ordered
rows of cells. -/
structure Dataset where
  cols : List String
  rows : List (List Cell)
deriving DecidableEq

/-- A table in the store: its column schema and its rows. -/
structure Table where
  schema : List (String × SqliteType)
  rows : List (List Cell)
deriving DecidableEq

/-- The SQLite database: an association list from table names to tables. -/
abbrev Store := List (String × Table)

/-- The characters stripped by Python's `str.strip()` (ASCII whitespace). -/
def is_py_space (c : Char) : Bool :=
  c == ' ' || c == '\t' || c == '\n' || c == '\r' || c == '\x0b' || c == '\x0c'

/-- Python's `s.strip()`: drop leading and trailing whitespace. -/
def pyStrip (s : String) : String :=
  String.mk (((s.data.dropWhile is_py_space).reverse.dropWhile is_py_space).reverse)

/-- Python's `s.replace(" ", "_")`: the pattern is the single space
character, so the substring replacement is a character map. -/
def replace_space (s : String) : String :=
  String.mk (s.data.map (fun c => if c = ' ' then '_' else c))

/-- `col.strip().replace(" ", "_")`, the column-name cleaning applied at
lines 102 and 110 of the source. -/
def col_clean (col : String) : String :=
  replace_space (pyStrip col)

/-- Python's `s.upper()`: uppercase every character. -/
def pyUpper (s : String) : String :=
  String.mk (s.data.map Char.toUpper)

/-- `input(...).strip().upper()`: the normalisation the source applies to
the conflict-resolution choice before comparing with "O", "R", "S". -/
def normalizeChoice (s : String) : String :=
  pyUpper (pyStrip s)

/-- `table_exists(cursor, name)` from the source: the sqlite_master query
returns a row iff a table of that name is in the store. -/
def table_exists (store : Store) (name : String) : Bool :=
  store.any (fun p => p.1 == name)

/-- Lookup a table by name in the store (first match). -/
def getTable : Store → String → Option Table
| [], _ => none
| p :: rest, name => if p.1 = name then some p.2 else getTable rest name

/-- `DROP TABLE IF EXISTS name`: remove the table of that name. -/
def dropTable (store : Store) (name : String) : Store :=
  store.filter (fun p => !(p.1 == name))

/-- `CREATE TABLE name (...)`: add an empty table with the given schema. -/
def createTable (store : Store) (name : String) (schema : List (String × SqliteType)) : Store :=
  store ++ [(name, ⟨schema, []⟩)]

/-- `df.to_sql(name, conn, if_exists="append")`: append the rows, in
order, to the table of that name. -/
def insertRows (store : Store) (name : String) (rows : List (List Cell)) : Store :=
  store.map (fun p => if p.1 = name then (p.1, ⟨p.2.schema, p.2.rows ++ rows⟩) else p)

/-- The schema built at lines 98-105: for each column, in order, the
cleaned name paired with the type inferred from the first row's cell
(`sample_row = df.iloc[0]`). -/
def buildSchema (cols : List String) (firstRow : List Cell) : List (String × SqliteType) :=
  (cols.zip firstRow).map (fun p => (col_clean p.1, infer_sqlite_type p.2))

/-- The renamed column list assigned at line 110
(`df.columns = [col.strip().replace(" ", "_") for col in df.columns]`),
the identifiers under which the rows are inserted. -/
def insert_columns (df : Dataset) : List String :=
  df.cols.map col_clean

/-- The digit character of `d` (for `d < 10`). -/
def charOfDigit (d : Nat) : Char := Char.ofNat (48 + d)

/-- Inverse of `charOfDigit` on digit characters. -/
def digitOfChar (c : Char) : Nat := c.toNat - 48

/-- Decimal digits of `n`, most significant first; `fuel` bounds the
recursion and any `fuel ≥ n` is enough. -/
def natDecAux : Nat → Nat → List Char
| 0, _ => []
| _ + 1, 0 => []
| fuel + 1, n + 1 => natDecAux fuel ((n + 1) / 10) ++ [charOfDigit ((n + 1) % 10)]

/-- Python's decimal formatting `f"{n}"` of a natural number. -/
def natDec (n : Nat) : String :=
  if n = 0 then "0" else String.mk (natDecAux n n)

/-- The candidate name `f"{table_name}_{suffix}"` tried by the rename
loop. -/
def suffixName (name : String) (k : Nat) : String :=
  name ++ "_" ++ natDec k

/-- The rename loop of lines 85-88: starting at `k`, return the first
suffix whose derived name is unused, trying at most `fuel` candidates. -/
def findSuffix (store : Store) (name : String) : Nat → Nat → Nat
| 0, k => k
| fuel + 1, k =>
  if table_exists store (suffixName name k) then findSuffix store name fuel (k + 1) else k

/-- The suffix the rename branch settles on: the loop starts at 1, and
`store.length + 1` candidates always suffice to find a free name. -/
def renameSuffix (store : Store) (name : String) : Nat :=
  findSuffix store name (store.length + 1) 1

/-- The result of a load, as signalled to the interactive caller. -/
inductive LoadResult where
| loaded : String → LoadResult
| skipped : LoadResult
| invalidChoice : LoadResult
| failed : LoadResult
deriving DecidableEq

/-- Observable outcome of one `create_table_from_csv` call: the signalled
result, the final store, whether `logging.error` wrote to the persistent
error log, whether an exception propagated past the call, and whether the
sqlite connection was acquired and whether it was closed. -/
structure LoadOutcome where
  result : LoadResult
  store : Store
  logged : Bool
  raised : Bool
  connAcquired : Bool
  connClosed : Bool
deriving DecidableEq

/-- Lines 97-111 of the source: take the first row as the sample
(`df.iloc[0]`, an IndexError on an empty frame), execute CREATE TABLE,
then append every row.  A failing statement raises, is caught by the
`except` block (which logs), and the `finally` closes the connection,
which is bound on every path reaching this code. -/
def buildAndInsert (df : Dataset) (name : String) (createOk insertOk : Bool)
    (store : Store) : LoadOutcome :=
  match df.rows with
  | [] => ⟨LoadResult.failed, store, true, false, true, true⟩
  | r :: _ =>
    if createOk then
      if insertOk then
        ⟨LoadResult.loaded name,
          insertRows (createTable store name (buildSchema df.cols r)) name df.rows,
          false, false, true, true⟩
      else
        ⟨LoadResult.failed, createTable store name (buildSchema df.cols r),
          true, false, true, true⟩
    else
      ⟨LoadResult.failed, store, true, false, true, true⟩

/-- `create_table_from_csv(csv_path, db_path, table_name)`.

`parsed` is the outcome of `pd.read_csv` (`none`: the parse raised);
`connectOk` is whether `sqlite3.connect` succeeded; `choiceInput` is the
raw text answered to the conflict prompt; `dropOk`, `createOk`,
`insertOk` are whether the respective statements succeed.

When the parse or the connect raises, the local `conn` was never bound:
the `except` block still logs the failure, but the `finally` block's
`conn.close()` then raises a `NameError` that propagates past the call
(`raised := true`).  On every other path `conn` is bound and the
`finally` closes it. -/
def create_table_from_csv (parsed : Option Dataset) (connectOk : Bool)
    (choiceInput : String) (dropOk createOk insertOk : Bool)
    (store : Store) (table_name : String) : LoadOutcome :=
  match parsed with
  | none => ⟨LoadResult.failed, store, true, true, false, false⟩
  | some df =>
    if connectOk then
      if table_exists store table_name then
        if normalizeChoice choiceInput = "S" then
          ⟨LoadResult.skipped, store, false, false, true, true⟩
        else if normalizeChoice choiceInput = "R" then
          buildAndInsert df (suffixName table_name (renameSuffix store table_name))
            createOk insertOk store
        else if normalizeChoice choiceInput = "O" then
          if dropOk then
            buildAndInsert df table_name createOk insertOk (dropTable store table_name)
          else
            ⟨LoadResult.failed, store, true, false, true, true⟩
        else
          ⟨LoadResult.invalidChoice, store, false, false, true, true⟩
      else
        buildAndInsert df table_name createOk insertOk store
    else
      ⟨LoadResult.failed, store, true, true, false, false⟩

/-! ### Decimal formatting: correctness and injectivity -/

/-- Value of a (most-significant-first) digit string. -/
def listVal (l : List Char) : Nat :=
  l.foldl (fun a c => 10 * a + digitOfChar c) 0

theorem digitOfChar_charOfDigit {d : Nat} (hd : d < 10) : digitOfChar (charOfDigit d) = d := by
  interval_cases d <;> decide

theorem listVal_append_digit (l : List Char) (c : Char) :
    listVal (l ++ [c]) = 10 * listVal l + digitOfChar c := by
  simp [listVal, List.foldl_append]

theorem listVal_natDecAux : ∀ fuel n, n ≤ fuel → listVal (natDecAux fuel n) = n := by
  intro fuel
  induction fuel with
  | zero =>
    intro n hn
    interval_cases n
    simp [natDecAux, listVal]
  | succ fuel ih =>
    intro n hn
    match n with
    | 0 => simp [natDecAux, listVal]
    | m + 1 =>
      have hdiv : (m + 1) / 10 ≤ fuel := by
        have h1 : (m + 1) / 10 < m + 1 := Nat.div_lt_self (Nat.succ_pos m) (by norm_num)
        omega
      rw [natDecAux, listVal_append_digit, ih _ hdiv,
        digitOfChar_charOfDigit (Nat.mod_lt _ (by norm_num))]
      exact Nat.div_add_mod (m + 1) 10

theorem natDec_inj {m n : Nat} (hm : 0 < m) (hn : 0 < n) (h : natDec m = natDec n) : m = n := by
  unfold natDec at h
  rw [if_neg (by omega), if_neg (by omega)] at h
  have hdata : natDecAux m m = natDecAux n n := by
    have := congrArg String.data h
    simpa using this
  have := congrArg listVal hdata
  rwa [listVal_natDecAux m m le_rfl, listVal_natDecAux n n le_rfl] at this

theorem suffixName_inj {name : String} {j k : Nat} (hj : 0 < j) (hk : 0 < k)
    (h : suffixName name j = suffixName name k) : j = k := by
  unfold suffixName at h
  have hdata := congrArg String.data h
  simp only [String.data_append] at hdata
  have h2 : (natDec j).data = (natDec k).data := List.append_cancel_left hdata
  exact natDec_inj hj hk (String.ext h2)

/-! ### The rename loop finds the least free suffix -/

theorem table_exists_iff_mem {store : Store} {name : String} :
    table_exists store name = true ↔ name ∈ store.map Prod.fst := by
  simp only [table_exists, List.any_eq_true, beq_iff_eq, List.mem_map]

theorem exists_free_suffix (store : Store) (name : String) :
    ∃ j, 1 ≤ j ∧ j ≤ store.length + 1 ∧ table_exists store (suffixName name j) = false := by
  by_contra hc
  push_neg at hc
  have hall : ∀ j, 1 ≤ j → j ≤ store.length + 1 →
      table_exists store (suffixName name j) = true := by
    intro j h1 h2
    have := hc j h1 h2
    revert this
    cases table_exists store (suffixName name j) <;> simp
  set L := (List.range (store.length + 1)).map (fun i => suffixName name (i + 1)) with hL
  have hnodup : L.Nodup := by
    refine List.Nodup.map ?_ (List.nodup_range _)
    intro a b hab
    have := suffixName_inj (Nat.succ_pos a) (Nat.succ_pos b) hab
    omega
  have hsub : L ⊆ store.map Prod.fst := by
    intro x hx
    rw [hL] at hx
    rcases List.mem_map.mp hx with ⟨i, hi, rfl⟩
    have hi' : i < store.length + 1 := List.mem_range.mp hi
    exact table_exists_iff_mem.mp (hall (i + 1) (Nat.succ_le_succ (Nat.zero_le i)) hi')
  have hlen : L.length ≤ (store.map Prod.fst).length :=
    (hnodup.subperm hsub).length_le
  simp [hL] at hlen

theorem findSuffix_spec (store : Store) (name : String) :
    ∀ fuel k, (∃ j, k ≤ j ∧ j < k + fuel ∧ table_exists store (suffixName name j) = false) →
    k ≤ findSuffix store name fuel k ∧
    table_exists store (suffixName name (findSuffix store name fuel k)) = false ∧
    ∀ j, k ≤ j → j < findSuffix store name fuel k →
      table_exists store (suffixName name j) = true := by
  intro fuel
  induction fuel with
  | zero =>
    intro k ⟨j, hj1, hj2, _⟩
    omega
  | succ fuel ih =>
    intro k hex
    rw [findSuffix]
    by_cases hk : table_exists store (suffixName name k) = true
    · rw [if_pos hk]
      have hex' : ∃ j, k + 1 ≤ j ∧ j < k + 1 + fuel ∧
          table_exists store (suffixName name j) = false := by
        rcases hex with ⟨j, hj1, hj2, hj3⟩
        refine ⟨j, ?_, by omega, hj3⟩
        rcases Nat.eq_or_lt_of_le hj1 with h | h
        · exfalso
          rw [h] at hk
          rw [hk] at hj3
          cases hj3
        · omega
      rcases ih (k + 1) hex' with ⟨ha, hb, hc⟩
      refine ⟨by omega, hb, ?_⟩
      intro j hj1 hj2
      rcases Nat.eq_or_lt_of_le hj1 with h | h
      · rwa [← h]
      · exact hc j h hj2
    · rw [if_neg hk]
      refine ⟨le_rfl, ?_, ?_⟩
      · cases h : table_exists store (suffixName name k)
        · rfl
        · exact absurd h hk
      · intro j hj1 hj2
        omega

/-- The suffix chosen by the rename branch is at least 1, its derived name
is unused, and every smaller positive suffix's derived name is in use. -/
theorem renameSuffix_least (store : Store) (name : String) :
    1 ≤ renameSuffix store name ∧
    table_exists store (suffixName name (renameSuffix store name)) = false ∧
    ∀ j, 1 ≤ j → j < renameSuffix store name →
      table_exists store (suffixName name j) = true := by
  rcases exists_free_suffix store name with ⟨j, hj1, hj2, hj3⟩
  exact findSuffix_spec store name (store.length + 1) 1 ⟨j, hj1, by omega, hj3⟩

/-! ### Store lemmas: create, insert, drop, lookup -/

theorem table_exists_false_iff {store : Store} {name : String} :
    table_exists store name = false ↔ ∀ p ∈ store, p.1 ≠ name := by
  simp only [table_exists, List.any_eq_false, beq_iff_eq]

theorem getTable_append_of_not_mem {l1 l2 : Store} {name : String}
    (h : ∀ p ∈ l1, p.1 ≠ name) : getTable (l1 ++ l2) name = getTable l2 name := by
  induction l1 with
  | nil => rfl
  | cons p rest ih =>
    rw [List.cons_append, getTable,
      if_neg (h p (List.mem_cons_self p rest)), ih]
    intro q hq
    exact h q (List.mem_cons_of_mem p hq)

theorem insertRows_key_eq (name : String) (rows : List (List Cell)) (p : String × Table) :
    ((fun p : String × Table =>
      if p.1 = name then (p.1, Table.mk p.2.schema (p.2.rows ++ rows)) else p) p).1 = p.1 := by
  by_cases h : p.1 = name <;> simp [h]

theorem insertRows_not_mem {l : Store} {name : String} (rows : List (List Cell))
    (h : ∀ p ∈ l, p.1 ≠ name) : ∀ p ∈ insertRows l name rows, p.1 ≠ name := by
  intro p hp
  rcases List.mem_map.mp hp with ⟨q, hq, rfl⟩
  rw [insertRows_key_eq]
  exact h q hq

/-- When `name` is not a key of `store0`, creating the table and inserting
the rows puts exactly `⟨schema, rows⟩` under `name`. -/
theorem getTable_insert_create {store0 : Store} {name : String}
    (schema : List (String × SqliteType)) (rows : List (List Cell))
    (h : ∀ p ∈ store0, p.1 ≠ name) :
    getTable (insertRows (createTable store0 name schema) name rows) name =
      some ⟨schema, rows⟩ := by
  have h1 : insertRows (createTable store0 name schema) name rows =
      insertRows store0 name rows ++ insertRows [(name, ⟨schema, []⟩)] name rows := by
    rw [createTable, insertRows, insertRows, insertRows, List.map_append]
  rw [h1, getTable_append_of_not_mem (insertRows_not_mem rows h)]
  simp [insertRows, getTable]

theorem dropTable_not_mem (store : Store) (name : String) :
    ∀ p ∈ dropTable store name, p.1 ≠ name := by
  intro p hp
  have := List.of_mem_filter hp
  simpa using this

theorem buildAndInsert_success (df : Dataset) (name : String) (store0 : Store)
    (r : List Cell) (rest : List (List Cell)) (hrows : df.rows = r :: rest)
    (h : ∀ p ∈ store0, p.1 ≠ name) :
    (buildAndInsert df name true true store0).result = LoadResult.loaded name ∧
    getTable (buildAndInsert df name true true store0).store name =
      some ⟨buildSchema df.cols r, df.rows⟩ ∧
    (buildAndInsert df name true true store0).logged = false ∧
    (buildAndInsert df name true true store0).raised = false := by
  rw [buildAndInsert, hrows]
  exact ⟨rfl, getTable_insert_create _ _ h, rfl, rfl⟩

/-! ### Reduction lemmas for the branches of the load -/

theorem load_fresh (df : Dataset) (c : String) (dropOk createOk insertOk : Bool)
    (store : Store) (name : String) (hfree : table_exists store name = false) :
    create_table_from_csv (some df) true c dropOk createOk insertOk store name =
      buildAndInsert df name createOk insertOk store := by
  simp [create_table_from_csv, hfree]

theorem buildAndInsert_connClosed (df : Dataset) (name : String) (a b : Bool)
    (store : Store) :
    (buildAndInsert df name a b store).connClosed = true ∧
    (buildAndInsert df name a b store).connAcquired = true := by
  cases hr : df.rows with
  | nil => simp [buildAndInsert, hr]
  | cons r rest => cases a <;> cases b <;> simp [buildAndInsert, hr]

theorem buildSchema_names (cols : List String) (r : List Cell)
    (hlen : cols.length ≤ r.length) :
    (buildSchema cols r).map Prod.fst = cols.map col_clean := by
  rw [buildSchema, List.map_map]
  have hcomp : (Prod.fst ∘ fun p : String × Cell =>
      (col_clean p.1, infer_sqlite_type p.2)) = col_clean ∘ Prod.fst := rfl
  rw [hcomp, ← List.map_map, List.map_fst_zip cols r hlen]

/-! ### The claims -/

/-- C1: for every non-empty dataset and every column, the storage type of
the created column is determined solely by the first row's cell for that
column — a missing value gives TEXT, an integer INTEGER, a float REAL,
anything else TEXT — and the later rows of the dataset do not affect the
inferred type. -/
theorem C1_type_from_first_row (cols : List String) (r : List Cell)
    (rest rest' : List (List Cell)) (c : String) (store : Store) (name : String)
    (hfree : table_exists store name = false) :
    (getTable (create_table_from_csv (some ⟨cols, r :: rest⟩) true c true true true
        store name).store name).map Table.schema =
      some ((cols.zip r).map (fun p => (col_clean p.1, infer_sqlite_type p.2))) ∧
    (getTable (create_table_from_csv (some ⟨cols, r :: rest⟩) true c true true true
        store name).store name).map Table.schema =
      (getTable (create_table_from_csv (some ⟨cols, r :: rest'⟩) true c true true true
        store name).store name).map Table.schema ∧
    infer_sqlite_type Cell.missing = SqliteType.TEXT ∧
    (∀ n : Int, infer_sqlite_type (Cell.intv n) = SqliteType.INTEGER) ∧
    (∀ q : ℚ, infer_sqlite_type (Cell.floatv q) = SqliteType.REAL) ∧
    (∀ s : String, infer_sqlite_type (Cell.textv s) = SqliteType.TEXT) := by
  have hfa : ∀ p ∈ store, p.1 ≠ name := table_exists_false_iff.mp hfree
  have h1 := buildAndInsert_success ⟨cols, r :: rest⟩ name store r rest rfl hfa
  have h2 := buildAndInsert_success ⟨cols, r :: rest'⟩ name store r rest' rfl hfa
  rw [load_fresh _ _ _ _ _ _ _ hfree, load_fresh _ _ _ _ _ _ _ hfree]
  rw [h1.2.1, h2.2.1]
  exact ⟨rfl, rfl, rfl, fun n => rfl, fun q => rfl, fun s => rfl⟩

theorem C1_witness :
    table_exists [] "t" = false ∧
    ((getTable (create_table_from_csv (some ⟨["a", "b"], [Cell.intv 4, Cell.missing] ::
        [[Cell.textv "x", Cell.intv 9]]⟩) true "" true true true [] "t").store
        "t").map Table.schema =
      some (((["a", "b"].zip [Cell.intv 4, Cell.missing]).map
        (fun p => (col_clean p.1, infer_sqlite_type p.2)))) ∧
    (getTable (create_table_from_csv (some ⟨["a", "b"], [Cell.intv 4, Cell.missing] ::
        [[Cell.textv "x", Cell.intv 9]]⟩) true "" true true true [] "t").store
        "t").map Table.schema =
      (getTable (create_table_from_csv (some ⟨["a", "b"], [Cell.intv 4, Cell.missing] ::
        []⟩) true "" true true true [] "t").store "t").map Table.schema ∧
    infer_sqlite_type Cell.missing = SqliteType.TEXT ∧
    (∀ n : Int, infer_sqlite_type (Cell.intv n) = SqliteType.INTEGER) ∧
    (∀ q : ℚ, infer_sqlite_type (Cell.floatv q) = SqliteType.REAL) ∧
    (∀ s : String, infer_sqlite_type (Cell.textv s) = SqliteType.TEXT)) :=
  ⟨by decide,
    C1_type_from_first_row ["a", "b"] [Cell.intv 4, Cell.missing]
      [[Cell.textv "x", Cell.intv 9]] [] "" [] "t" (by decide)⟩

/-- C2 (divergence witness): when the CSV parse fails, the `except` block
does log the failure and a Failed message is shown, but the local `conn`
was never bound, so the `finally` block's `conn.close()` raises a
`NameError` that propagates past the call — the load does NOT satisfy "it
never raises past the caller".  The same happens when the connect fails. -/
theorem C2_failure_raises_past_caller :
    (create_table_from_csv none true "" true true true [] "t").result =
      LoadResult.failed ∧
    (create_table_from_csv none true "" true true true [] "t").logged = true ∧
    (create_table_from_csv none true "" true true true [] "t").raised = true ∧
    (create_table_from_csv (some ⟨["a"], [[Cell.intv 1]]⟩) false "" true true true
      [] "t").raised = true :=
  ⟨rfl, rfl, rfl, rfl⟩

/-- C3: whenever the store connection is acquired during a load, it is
released on every exit path of that load — the Skip and InvalidChoice
early returns and every failure path included. -/
theorem C3_connection_released (parsed : Option Dataset) (connectOk : Bool)
    (c : String) (dropOk createOk insertOk : Bool) (store : Store) (name : String)
    (h : (create_table_from_csv parsed connectOk c dropOk createOk insertOk
      store name).connAcquired = true) :
    (create_table_from_csv parsed connectOk c dropOk createOk insertOk
      store name).connClosed = true := by
  match parsed with
  | none => simp [create_table_from_csv] at h
  | some df =>
    cases connectOk with
    | false => simp [create_table_from_csv] at h
    | true =>
      simp only [create_table_from_csv]
      split_ifs <;>
        first
          | rfl
          | exact (buildAndInsert_connClosed _ _ _ _ _).1

theorem C3_witness :
    (create_table_from_csv (some ⟨["a"], []⟩) true "" true true true []
      "t").connAcquired = true ∧
    (create_table_from_csv (some ⟨["a"], []⟩) true "" true true true []
      "t").connClosed = true :=
  ⟨by decide, C3_connection_released (some ⟨["a"], []⟩) true "" true true true []
    "t" (by decide)⟩

/-- C6: when the requested name collides and the choice normalises to
Skip, the load signals Skipped and the store is completely unchanged. -/
theorem C6_skip_no_mutation (df : Dataset) (c : String)
    (dropOk createOk insertOk : Bool) (store : Store) (name : String)
    (hex : table_exists store name = true) (hc : normalizeChoice c = "S") :
    (create_table_from_csv (some df) true c dropOk createOk insertOk
      store name).result = LoadResult.skipped ∧
    (create_table_from_csv (some df) true c dropOk createOk insertOk
      store name).store = store := by
  simp [create_table_from_csv, hex, hc]

theorem C6_witness :
    table_exists [("t", Table.mk [] [])] "t" = true ∧
    normalizeChoice " s " = "S" ∧
    ((create_table_from_csv (some ⟨["a"], [[Cell.intv 1]]⟩) true " s " true true true
      [("t", Table.mk [] [])] "t").result = LoadResult.skipped ∧
    (create_table_from_csv (some ⟨["a"], [[Cell.intv 1]]⟩) true " s " true true true
      [("t", Table.mk [] [])] "t").store = [("t", Table.mk [] [])]) :=
  ⟨by decide, by decide,
    C6_skip_no_mutation ⟨["a"], [[Cell.intv 1]]⟩ " s " true true true
      [("t", Table.mk [] [])] "t" (by decide) (by decide)⟩

/-- C7: when the requested name collides and the choice is none of the
Overwrite, Rename or Skip decisions, the load signals the distinct result
InvalidChoice (neither Skipped nor Failed) and leaves the store
untouched. -/
theorem C7_invalid_choice (df : Dataset) (c : String)
    (dropOk createOk insertOk : Bool) (store : Store) (name : String)
    (hex : table_exists store name = true)
    (hS : normalizeChoice c ≠ "S") (hR : normalizeChoice c ≠ "R")
    (hO : normalizeChoice c ≠ "O") :
    (create_table_from_csv (some df) true c dropOk createOk insertOk
      store name).result = LoadResult.invalidChoice ∧
    (create_table_from_csv (some df) true c dropOk createOk insertOk
      store name).result ≠ LoadResult.skipped ∧
    (create_table_from_csv (some df) true c dropOk createOk insertOk
      store name).result ≠ LoadResult.failed ∧
    (create_table_from_csv (some df) true c dropOk createOk insertOk
      store name).store = store := by
  simp [create_table_from_csv, hex, hS, hR, hO]

theorem C7_witness :
    table_exists [("t", Table.mk [] [])] "t" = true ∧
    normalizeChoice "q" ≠ "S" ∧ normalizeChoice "q" ≠ "R" ∧
    normalizeChoice "q" ≠ "O" ∧
    ((create_table_from_csv (some ⟨["a"], [[Cell.intv 1]]⟩) true "q" true true true
      [("t", Table.mk [] [])] "t").result = LoadResult.invalidChoice ∧
    (create_table_from_csv (some ⟨["a"], [[Cell.intv 1]]⟩) true "q" true true true
      [("t", Table.mk [] [])] "t").result ≠ LoadResult.skipped ∧
    (create_table_from_csv (some ⟨["a"], [[Cell.intv 1]]⟩) true "q" true true true
      [("t", Table.mk [] [])] "t").result ≠ LoadResult.failed ∧
    (create_table_from_csv (some ⟨["a"], [[Cell.intv 1]]⟩) true "q" true true true
      [("t", Table.mk [] [])] "t").store = [("t", Table.mk [] [])]) :=
  ⟨by decide, by decide, by decide, by decide,
    C7_invalid_choice ⟨["a"], [[Cell.intv 1]]⟩ "q" true true true
      [("t", Table.mk [] [])] "t" (by decide) (by decide) (by decide) (by decide)⟩

/-- C10: a dataset that parses with zero rows (header only), loaded under a
name not yet in the store, creates no table: sampling the first row fails,
the load ends Failed with the error logged, the store is unchanged, and no
exception escapes (the connection was bound, so the cleanup succeeds). -/
theorem C10_header_only_failed (cols : List String) (c : String)
    (dropOk createOk insertOk : Bool) (store : Store) (name : String)
    (hfree : table_exists store name = false) :
    (create_table_from_csv (some ⟨cols, []⟩) true c dropOk createOk insertOk
      store name).result = LoadResult.failed ∧
    (create_table_from_csv (some ⟨cols, []⟩) true c dropOk createOk insertOk
      store name).logged = true ∧
    (create_table_from_csv (some ⟨cols, []⟩) true c dropOk createOk insertOk
      store name).store = store ∧
    (create_table_from_csv (some ⟨cols, []⟩) true c dropOk createOk insertOk
      store name).raised = false := by
  rw [load_fresh _ _ _ _ _ _ _ hfree]
  simp [buildAndInsert]

theorem C10_witness :
    table_exists [] "t" = false ∧
    ((create_table_from_csv (some ⟨["a", "b"], []⟩) true "" true true true []
      "t").result = LoadResult.failed ∧
    (create_table_from_csv (some ⟨["a", "b"], []⟩) true "" true true true []
      "t").logged = true ∧
    (create_table_from_csv (some ⟨["a", "b"], []⟩) true "" true true true []
      "t").store = [] ∧
    (create_table_from_csv (some ⟨["a", "b"], []⟩) true "" true true true []
      "t").raised = false) :=
  ⟨by decide, C10_header_only_failed ["a", "b"] "" true true true [] "t" (by decide)⟩

/-- C4: when the requested name collides and the choice normalises to
Rename, the load proceeds under the name derived from the smallest
positive suffix whose derived name is unused; in particular, when exactly
the suffixes 1 and 2 are taken and 3 is free, the chosen suffix is 3. -/
theorem C4_rename_least (df : Dataset) (c : String) (dropOk : Bool)
    (store : Store) (name : String) (r : List Cell) (rest : List (List Cell))
    (hrows : df.rows = r :: rest) (hex : table_exists store name = true)
    (hc : normalizeChoice c = "R") :
    (create_table_from_csv (some df) true c dropOk true true store name).result =
      LoadResult.loaded (suffixName name (renameSuffix store name)) ∧
    getTable (create_table_from_csv (some df) true c dropOk true true store
        name).store (suffixName name (renameSuffix store name)) =
      some ⟨buildSchema df.cols r, df.rows⟩ ∧
    1 ≤ renameSuffix store name ∧
    table_exists store (suffixName name (renameSuffix store name)) = false ∧
    (∀ j, 1 ≤ j → j < renameSuffix store name →
      table_exists store (suffixName name j) = true) ∧
    (table_exists store (suffixName name 1) = true →
      table_exists store (suffixName name 2) = true →
      table_exists store (suffixName name 3) = false →
      renameSuffix store name = 3) := by
  obtain ⟨hk1, hkfree, hkleast⟩ := renameSuffix_least store name
  have hfa := table_exists_false_iff.mp hkfree
  have hbuild := buildAndInsert_success df (suffixName name (renameSuffix store name))
    store r rest hrows hfa
  have hload : create_table_from_csv (some df) true c dropOk true true store name =
      buildAndInsert df (suffixName name (renameSuffix store name)) true true store := by
    simp [create_table_from_csv, hex, hc]
  refine ⟨by rw [hload]; exact hbuild.1, by rw [hload]; exact hbuild.2.1, hk1, hkfree,
    hkleast, ?_⟩
  intro h1 h2 h3
  by_contra hne
  rcases Nat.lt_or_ge (renameSuffix store name) 3 with hlt | hge
  · have hcase : renameSuffix store name = 1 ∨ renameSuffix store name = 2 := by omega
    rcases hcase with h | h
    · rw [h, h1] at hkfree
      cases hkfree
    · rw [h, h2] at hkfree
      cases hkfree
  · have h4 := hkleast 3 (by norm_num) (by omega)
    rw [h3] at h4
    cases h4

theorem C4_witness :
    (Dataset.mk ["x"] [[Cell.intv 7]]).rows = [Cell.intv 7] :: [] ∧
    table_exists [("T", Table.mk [] []), ("T_1", Table.mk [] []),
      ("T_2", Table.mk [] [])] "T" = true ∧
    normalizeChoice " r " = "R" ∧
    ((create_table_from_csv (some ⟨["x"], [[Cell.intv 7]]⟩) true " r " true true true
      [("T", Table.mk [] []), ("T_1", Table.mk [] []), ("T_2", Table.mk [] [])]
      "T").result = LoadResult.loaded (suffixName "T" (renameSuffix
        [("T", Table.mk [] []), ("T_1", Table.mk [] []), ("T_2", Table.mk [] [])]
        "T")) ∧
    getTable (create_table_from_csv (some ⟨["x"], [[Cell.intv 7]]⟩) true " r " true
      true true [("T", Table.mk [] []), ("T_1", Table.mk [] []),
      ("T_2", Table.mk [] [])] "T").store (suffixName "T" (renameSuffix
        [("T", Table.mk [] []), ("T_1", Table.mk [] []), ("T_2", Table.mk [] [])]
        "T")) = some ⟨buildSchema ["x"] [Cell.intv 7], [[Cell.intv 7]]⟩ ∧
    1 ≤ renameSuffix [("T", Table.mk [] []), ("T_1", Table.mk [] []),
      ("T_2", Table.mk [] [])] "T" ∧
    table_exists [("T", Table.mk [] []), ("T_1", Table.mk [] []),
      ("T_2", Table.mk [] [])] (suffixName "T" (renameSuffix
        [("T", Table.mk [] []), ("T_1", Table.mk [] []), ("T_2", Table.mk [] [])]
        "T")) = false ∧
    (∀ j, 1 ≤ j → j < renameSuffix [("T", Table.mk [] []), ("T_1", Table.mk [] []),
        ("T_2", Table.mk [] [])] "T" →
      table_exists [("T", Table.mk [] []), ("T_1", Table.mk [] []),
        ("T_2", Table.mk [] [])] (suffixName "T" j) = true) ∧
    (table_exists [("T", Table.mk [] []), ("T_1", Table.mk [] []),
        ("T_2", Table.mk [] [])] (suffixName "T" 1) = true →
      table_exists [("T", Table.mk [] []), ("T_1", Table.mk [] []),
        ("T_2", Table.mk [] [])] (suffixName "T" 2) = true →
      table_exists [("T", Table.mk [] []), ("T_1", Table.mk [] []),
        ("T_2", Table.mk [] [])] (suffixName "T" 3) = false →
      renameSuffix [("T", Table.mk [] []), ("T_1", Table.mk [] []),
        ("T_2", Table.mk [] [])] "T" = 3)) :=
  ⟨rfl, by decide, by decide,
    C4_rename_least ⟨["x"], [[Cell.intv 7]]⟩ " r " true
      [("T", Table.mk [] []), ("T_1", Table.mk [] []), ("T_2", Table.mk [] [])]
      "T" [Cell.intv 7] [] rfl (by decide) (by decide)⟩

/-- C5: when the requested name collides and the choice normalises to
Overwrite, the existing table and all its data are dropped and the load
proceeds under the original name, so that after a successful overwrite the
table holds exactly the rows of the new dataset, whatever the prior
contents were. -/
theorem C5_overwrite_destructive (df : Dataset) (c : String) (store : Store)
    (name : String) (r : List Cell) (rest : List (List Cell))
    (hrows : df.rows = r :: rest) (hex : table_exists store name = true)
    (hc : normalizeChoice c = "O") :
    (create_table_from_csv (some df) true c true true true store name).result =
      LoadResult.loaded name ∧
    getTable (create_table_from_csv (some df) true c true true true store name).store
      name = some ⟨buildSchema df.cols r, df.rows⟩ ∧
    (getTable (create_table_from_csv (some df) true c true true true store
      name).store name).map (fun t => t.rows.length) = some df.rows.length := by
  have hbuild := buildAndInsert_success df name (dropTable store name) r rest hrows
    (dropTable_not_mem store name)
  have hload : create_table_from_csv (some df) true c true true true store name =
      buildAndInsert df name true true (dropTable store name) := by
    simp [create_table_from_csv, hex, hc]
  rw [hload]
  refine ⟨hbuild.1, hbuild.2.1, ?_⟩
  rw [hbuild.2.1]
  rfl

theorem C5_witness :
    (Dataset.mk ["x"] [[Cell.intv 7]]).rows = [Cell.intv 7] :: [] ∧
    table_exists [("t", Table.mk [("old", SqliteType.TEXT)]
      [[Cell.textv "p"], [Cell.textv "q"]])] "t" = true ∧
    normalizeChoice "o" = "O" ∧
    ((create_table_from_csv (some ⟨["x"], [[Cell.intv 7]]⟩) true "o" true true true
      [("t", Table.mk [("old", SqliteType.TEXT)] [[Cell.textv "p"], [Cell.textv "q"]])]
      "t").result = LoadResult.loaded "t" ∧
    getTable (create_table_from_csv (some ⟨["x"], [[Cell.intv 7]]⟩) true "o" true true
      true [("t", Table.mk [("old", SqliteType.TEXT)]
      [[Cell.textv "p"], [Cell.textv "q"]])] "t").store "t" =
      some ⟨buildSchema ["x"] [Cell.intv 7], [[Cell.intv 7]]⟩ ∧
    (getTable (create_table_from_csv (some ⟨["x"], [[Cell.intv 7]]⟩) true "o" true
      true true [("t", Table.mk [("old", SqliteType.TEXT)]
      [[Cell.textv "p"], [Cell.textv "q"]])] "t").store "t").map
      (fun t => t.rows.length) = some [[Cell.intv 7]].length) :=
  ⟨rfl, by decide, by decide,
    C5_overwrite_destructive ⟨["x"], [[Cell.intv 7]]⟩ "o"
      [("t", Table.mk [("old", SqliteType.TEXT)] [[Cell.textv "p"], [Cell.textv "q"]])]
      "t" [Cell.intv 7] [] rfl (by decide) (by decide)⟩

/-- C9: a successful fresh load creates the table with one column per
inferred definition in the original column order and appends every
dataset row in order; in particular the `[id, name, score]` dataset with
first row `(1, "Alice", 9.5)` loaded into an empty store as "students"
yields column types (INTEGER, TEXT, REAL) and exactly as many rows as the
dataset. -/
theorem C9_create_and_append (cols : List String) (r : List Cell)
    (rest : List (List Cell)) (c : String) (store : Store) (name : String)
    (hfree : table_exists store name = false) (hlen : r.length = cols.length) :
    (create_table_from_csv (some ⟨cols, r :: rest⟩) true c true true true store
      name).result = LoadResult.loaded name ∧
    getTable (create_table_from_csv (some ⟨cols, r :: rest⟩) true c true true true
      store name).store name = some ⟨buildSchema cols r, r :: rest⟩ ∧
    (buildSchema cols r).map Prod.fst = cols.map col_clean ∧
    (buildSchema cols r).length = cols.length ∧
    (∀ rest2 : List (List Cell),
      (create_table_from_csv (some ⟨["id", "name", "score"],
        [Cell.intv 1, Cell.textv "Alice", Cell.floatv (9.5 : ℚ)] :: rest2⟩) true ""
        true true true [] "students").result = LoadResult.loaded "students" ∧
      (getTable (create_table_from_csv (some ⟨["id", "name", "score"],
        [Cell.intv 1, Cell.textv "Alice", Cell.floatv (9.5 : ℚ)] :: rest2⟩) true ""
        true true true [] "students").store "students").map
        (fun t => t.schema.map Prod.snd) =
        some [SqliteType.INTEGER, SqliteType.TEXT, SqliteType.REAL] ∧
      (getTable (create_table_from_csv (some ⟨["id", "name", "score"],
        [Cell.intv 1, Cell.textv "Alice", Cell.floatv (9.5 : ℚ)] :: rest2⟩) true ""
        true true true [] "students").store "students").map
        (fun t => t.rows.length) = some (rest2.length + 1)) := by
  have hfa := table_exists_false_iff.mp hfree
  have hbuild := buildAndInsert_success ⟨cols, r :: rest⟩ name store r rest rfl hfa
  rw [load_fresh _ _ _ _ _ _ _ hfree]
  refine ⟨hbuild.1, hbuild.2.1, buildSchema_names cols r (by omega), ?_, ?_⟩
  · rw [buildSchema, List.length_map, List.length_zip]
    omega
  · intro rest2
    have hfa2 : ∀ p ∈ ([] : Store), p.1 ≠ "students" := by simp
    have hb2 := buildAndInsert_success ⟨["id", "name", "score"],
      [Cell.intv 1, Cell.textv "Alice", Cell.floatv (9.5 : ℚ)] :: rest2⟩ "students" []
      [Cell.intv 1, Cell.textv "Alice", Cell.floatv (9.5 : ℚ)] rest2 rfl hfa2
    rw [load_fresh _ _ _ _ _ _ _ (by decide)]
    refine ⟨hb2.1, ?_, ?_⟩
    · rw [hb2.2.1]
      rfl
    · rw [hb2.2.1]
      simp

theorem C9_witness :
    table_exists [] "students" = false ∧
    ([Cell.intv 1, Cell.textv "Alice", Cell.floatv (9.5 : ℚ)].length =
      ["id", "name", "score"].length) ∧
    ((create_table_from_csv (some ⟨["id", "name", "score"],
      [Cell.intv 1, Cell.textv "Alice", Cell.floatv (9.5 : ℚ)] :: []⟩) true "" true
      true true [] "students").result = LoadResult.loaded "students" ∧
    getTable (create_table_from_csv (some ⟨["id", "name", "score"],
      [Cell.intv 1, Cell.textv "Alice", Cell.floatv (9.5 : ℚ)] :: []⟩) true "" true
      true true [] "students").store "students" =
      some ⟨buildSchema ["id", "name", "score"]
        [Cell.intv 1, Cell.textv "Alice", Cell.floatv (9.5 : ℚ)],
        [Cell.intv 1, Cell.textv "Alice", Cell.floatv (9.5 : ℚ)] :: []⟩ ∧
    (buildSchema ["id", "name", "score"]
      [Cell.intv 1, Cell.textv "Alice", Cell.floatv (9.5 : ℚ)]).map Prod.fst =
      ["id", "name", "score"].map col_clean ∧
    (buildSchema ["id", "name", "score"]
      [Cell.intv 1, Cell.textv "Alice", Cell.floatv (9.5 : ℚ)]).length =
      ["id", "name", "score"].length ∧
    (∀ rest2 : List (List Cell),
      (create_table_from_csv (some ⟨["id", "name", "score"],
        [Cell.intv 1, Cell.textv "Alice", Cell.floatv (9.5 : ℚ)] :: rest2⟩) true ""
        true true true [] "students").result = LoadResult.loaded "students" ∧
      (getTable (create_table_from_csv (some ⟨["id", "name", "score"],
        [Cell.intv 1, Cell.textv "Alice", Cell.floatv (9.5 : ℚ)] :: rest2⟩) true ""
        true true true [] "students").store "students").map
        (fun t => t.schema.map Prod.snd) =
        some [SqliteType.INTEGER, SqliteType.TEXT, SqliteType.REAL] ∧
      (getTable (create_table_from_csv (some ⟨["id", "name", "score"],
        [Cell.intv 1, Cell.textv "Alice", Cell.floatv (9.5 : ℚ)] :: rest2⟩) true ""
        true true true [] "students").store "students").map
        (fun t => t.rows.length) = some (rest2.length + 1))) :=
  ⟨by decide, by decide,
    C9_create_and_append ["id", "name", "score"]
      [Cell.intv 1, Cell.textv "Alice", Cell.floatv (9.5 : ℚ)] [] "" [] "students"
      (by decide) (by decide)⟩

/-- Modelled from the claim's wording for comparison: strip leading and
trailing whitespace, then replace EVERY internal whitespace character
with an underscore (the source replaces only the space character). -/
def col_clean_claimed (col : String) : String :=
  String.mk ((pyStrip col).data.map (fun c => if is_py_space c then '_' else c))

/-- C8 counterexample: on a column name with an internal tab the source's
cleaning (`strip` then replace only `" "`) differs from the claimed
"every internal whitespace character replaced": the tab survives into the
SQL identifier used by CREATE TABLE. -/
theorem C8_counterexample_tab :
    col_clean "a\tb" = "a\tb" ∧
    col_clean_claimed "a\tb" = "a_b" ∧
    col_clean "a\tb" ≠ col_clean_claimed "a\tb" ∧
    (getTable (create_table_from_csv (some ⟨["a\tb"], [[Cell.intv 1]]⟩) true "" true
      true true [] "t").store "t").map (fun t => t.schema.map Prod.fst) =
      some ["a\tb"] :=
  ⟨by decide, by decide, by decide, by decide⟩

/-- C8 (amended): each column identifier is the name with leading and
trailing whitespace stripped and every internal SPACE character replaced
by an underscore (other internal whitespace such as tabs is kept), and
this identifier is used verbatim both in the CREATE TABLE schema and as
the column list for the row inserts. -/
theorem C8_amended_identifiers (cols : List String) (r : List Cell)
    (hlen : r.length = cols.length) :
    (buildSchema cols r).map Prod.fst = cols.map col_clean ∧
    (∀ df : Dataset, insert_columns df = df.cols.map col_clean) ∧
    (∀ s : String, (col_clean s).data =
      (pyStrip s).data.map (fun ch => if ch = ' ' then '_' else ch)) ∧
    (∀ s : String, ∀ ch ∈ (col_clean s).data, ch ≠ ' ') := by
  refine ⟨buildSchema_names cols r (by omega), fun df => rfl, fun s => rfl, ?_⟩
  intro s ch hch
  have hmem : ch ∈ (pyStrip s).data.map (fun c => if c = ' ' then '_' else c) := hch
  rcases List.mem_map.mp hmem with ⟨c, hc, hceq⟩
  by_cases h' : c = ' '
  · rw [if_pos h'] at hceq
    rw [← hceq]
    decide
  · rw [if_neg h'] at hceq
    rw [← hceq]
    exact h'

theorem C8_amended_witness :
    ([Cell.intv 1, Cell.missing].length = ["a b", " c "].length) ∧
    ((buildSchema ["a b", " c "] [Cell.intv 1, Cell.missing]).map Prod.fst =
      ["a b", " c "].map col_clean ∧
    (∀ df : Dataset, insert_columns df = df.cols.map col_clean) ∧
    (∀ s : String, (col_clean s).data =
      (pyStrip s).data.map (fun ch => if ch = ' ' then '_' else ch)) ∧
    (∀ s : String, ∀ ch ∈ (col_clean s).data, ch ≠ ' ')) :=
  ⟨by decide,
    C8_amended_identifiers ["a b", " c "] [Cell.intv 1, Cell.missing] (by decide)⟩

end LoadCsv
